import Mathlib

/-!
Verification development for the purchase-bot dialogue example
(`src/examples/purchase.rs`) and the stateful event-dispatch core it
exercises.  The example's own data (the `State` and `Command` variants, the
predicate tree built by `schema`, and the five handler functions) is
translated directly from the source.  The reusable engine the example runs
on (command parsing, predicate-tree evaluation, the dispatcher and the
in-memory conversation store) is library code that is not part of the
example file; those pieces are modelled from the specification, as marked
on each definition.
-/

set_option autoImplicit false

namespace Purchase

/-- Conversation identifier (the chat id carried by every update). -/
abbrev ConvId := Int

/-- Dialogue state (src/examples/purchase.rs:29-33). -/
inductive State where
  | Start
  | ReceiveFullName
  | ReceiveProductChoice (full_name : String)
deriving DecidableEq, Repr

/-- `Default for State` (src/examples/purchase.rs:35-39). -/
def State.defaultState : State := .Start

/-- The closed command set (src/examples/purchase.rs:43-50). -/
inductive Command where
  | Help
  | Start
  | Cancel
deriving DecidableEq, Repr

/-- Normalized inbound events: a plain message (whose text may be absent)
or a callback query (whose data may be absent), each carrying the
conversation identity. -/
inductive Event where
  | TextMessage (chatId : ConvId) (text : Option String)
  | CallbackQuery (chatId : ConvId) (data : Option String)
deriving DecidableEq, Repr

/-- The conversation identity of an event. -/
def Event.convId : Event → ConvId
  | .TextMessage id _ => id
  | .CallbackQuery id _ => id

@[simp] theorem Event.convId_text (id : ConvId) (t : Option String) :
    (Event.TextMessage id t).convId = id := rfl

@[simp] theorem Event.convId_callback (id : ConvId) (d : Option String) :
    (Event.CallbackQuery id d).convId = id := rfl

/-- ASCII lowercasing of a single character, used by the command parser. -/
def lowerAscii (c : Char) : Char :=
  if 'A' ≤ c ∧ c ≤ 'Z' then Char.ofNat (c.toNat + 32) else c

/-- Modelled from the spec: the command parser the `BotCommands` derive
generates for `Command` (library code, not in the example file).  Per §4.4
it strips a single leading command-marker token, lowercases it, and
matches it against the closed `Command` variant set; unmatched text yields
`none`. -/
def parseCommand (text : String) : Option Command :=
  match text.data.takeWhile (fun c => c != ' ') with
  | '/' :: rest =>
    match rest.map lowerAscii with
    | ['h', 'e', 'l', 'p'] => some Command.Help
    | ['s', 't', 'a', 'r', 't'] => some Command.Start
    | ['c', 'a', 'n', 'c', 'e', 'l'] => some Command.Cancel
    | _ => none
  | _ => none

/-- The environment a handler runs in: whether the outbound send
collaborator (`bot.send_message(..).await`) succeeds.  A failing send makes
the handler return a `HandlerError`, as in the source where `?` propagates
the send error. -/
structure Env where
  sendOk : Bool
deriving DecidableEq, Repr

/-- A handler's requested state transition (spec §3, HandlerOutcome):
`dialogue.update(s)`, `dialogue.exit()`, or no store mutation. -/
inductive Directive where
  | update (s : State)
  | exit
  | noChange
deriving DecidableEq, Repr

/-- What a successful handler run produced: its state directive and the
messages it sent, in order. -/
structure HandlerOutput where
  directive : Directive
  sent : List String
deriving DecidableEq, Repr

/-- `HandlerResult` (src/examples/purchase.rs:26): `Ok(())` or a boxed
error, here with the success case carrying the observable outcome. -/
abbrev HandlerResult := Except String HandlerOutput

/-- The evaluation context the predicate tree threads along: the event,
the conversation's current state (injected by `dialogue::enter`), and the
values bound so far by `Case`-style nodes (the parsed command bound by
`filter_command`, the `full_name` payload bound by
`case![State::ReceiveProductChoice { full_name }]`). -/
structure Ctx where
  event : Event
  state : State
  cmd : Option Command
  fullName : Option String
deriving DecidableEq, Repr

/-- `msg.text()`: the text of a message event, absent for callbacks. -/
def msgText : Event → Option String
  | .TextMessage _ t => t
  | .CallbackQuery _ _ => none

/-- `q.data`: the payload of a callback query, absent for messages. -/
def qData : Event → Option String
  | .CallbackQuery _ d => d
  | .TextMessage _ _ => none

/-- The `/help` descriptions text (`Command::descriptions()`). -/
def descriptions : String :=
  "These commands are supported:\n/help - display this text.\n/start - start the purchase procedure.\n/cancel - cancel the purchase procedure."

/-- The `start` handler (src/examples/purchase.rs:91-95): send the
greeting, then `dialogue.update(State::ReceiveFullName)`. -/
def start (env : Env) (_ctx : Ctx) : HandlerResult :=
  if env.sendOk then
    .ok ⟨.update .ReceiveFullName, ["Let's start! What's your full name?"]⟩
  else
    .error "send_message failed"

/-- The `help` handler (src/examples/purchase.rs:97-100): send the command
descriptions; no dialogue mutation. -/
def help (env : Env) (_ctx : Ctx) : HandlerResult :=
  if env.sendOk then
    .ok ⟨.noChange, [descriptions]⟩
  else
    .error "send_message failed"

/-- The `cancel` handler (src/examples/purchase.rs:102-106): send the
cancellation notice, then `dialogue.exit()`. -/
def cancel (env : Env) (_ctx : Ctx) : HandlerResult :=
  if env.sendOk then
    .ok ⟨.exit, ["Cancelling the dialogue."]⟩
  else
    .error "send_message failed"

/-- The `invalid_state` handler (src/examples/purchase.rs:108-112): the
fallback reply; no dialogue mutation. -/
def invalid_state (env : Env) (_ctx : Ctx) : HandlerResult :=
  if env.sendOk then
    .ok ⟨.noChange, ["Unable to handle the message. Type /help to see the usage."]⟩
  else
    .error "send_message failed"

/-- The `receive_full_name` handler (src/examples/purchase.rs:114-135):
with text present, send the product keyboard and
`dialogue.update(State::ReceiveProductChoice { full_name })`; with no
text, ask again and leave the dialogue untouched. -/
def receive_full_name (env : Env) (ctx : Ctx) : HandlerResult :=
  match msgText ctx.event with
  | some full_name =>
    if env.sendOk then
      .ok ⟨.update (.ReceiveProductChoice full_name), ["Select a product:"]⟩
    else
      .error "send_message failed"
  | none =>
    if env.sendOk then
      .ok ⟨.noChange, ["Please, send me your full name."]⟩
    else
      .error "send_message failed"

/-- The `receive_product_selection` handler
(src/examples/purchase.rs:137-153): with callback data present, send the
confirmation and `dialogue.exit()`; with no data, return `Ok(())` doing
nothing. The `full_name` argument is the dependency bound by the
enclosing `case!` node. -/
def receive_product_selection (env : Env) (ctx : Ctx) : HandlerResult :=
  match ctx.fullName with
  | none => .error "missing dependency: full_name"
  | some full_name =>
    match qData ctx.event with
    | some product =>
      if env.sendOk then
        .ok ⟨.exit,
          [full_name ++ ", product '" ++ product ++ "' has been purchased successfully!"]⟩
      else
        .error "send_message failed"
    | none => .ok ⟨.noChange, []⟩

/-- Modelled from the spec: the predicate-tree node shapes of §4.2 for the
`dptree` combinators used by `schema` (library code, not in the example
file).  `filter` is a `Filter` chained into its continuation, `caseOn` is
a `Case` node that matches and binds into the context, `branch` is the
ordered two-way committed choice `x.branch(y)`, and `endpoint` invokes a
labelled handler. -/
inductive Tree where
  | filter (p : Ctx → Bool) (rest : Tree)
  | caseOn (f : Ctx → Option Ctx) (rest : Tree)
  | branch (a : Tree) (b : Tree)
  | endpoint (label : String) (run : Env → Ctx → HandlerResult)

/-- Modelled from the spec: predicate-tree evaluation (§4.2): depth-first,
left-to-right, lazy; a failed `Filter`/`Case` falls through to the next
sibling of the nearest enclosing `Branch`; the first child reaching an
`Endpoint` wins (committed choice).  Returns the label of the invoked
endpoint and its handler's result, or `none` when no endpoint is
reached. -/
def evalTree (env : Env) : Tree → Ctx → Option (String × HandlerResult)
  | .filter p rest, ctx => if p ctx then evalTree env rest ctx else none
  | .caseOn f rest, ctx =>
    match f ctx with
    | some ctx2 => evalTree env rest ctx2
    | none => none
  | .branch a b, ctx =>
    match evalTree env a ctx with
    | some r => some r
    | none => evalTree env b ctx
  | .endpoint label run, ctx => some (label, run env ctx)

/-- How many endpoints a committed-choice evaluation of the tree invokes
on a given context. -/
def evalCount (env : Env) : Tree → Ctx → Nat
  | .filter p rest, ctx => if p ctx then evalCount env rest ctx else 0
  | .caseOn f rest, ctx =>
    match f ctx with
    | some ctx2 => evalCount env rest ctx2
    | none => 0
  | .branch a b, ctx =>
    match evalTree env a ctx with
    | some _ => evalCount env a ctx
    | none => evalCount env a ctx + evalCount env b ctx
  | .endpoint _ _, _ => 1

/-- `Update::filter_message()`. -/
def isMessage (ctx : Ctx) : Bool :=
  match ctx.event with
  | .TextMessage _ _ => true
  | .CallbackQuery _ _ => false

/-- `Update::filter_callback_query()`. -/
def isCallbackQuery (ctx : Ctx) : Bool :=
  match ctx.event with
  | .CallbackQuery _ _ => true
  | .TextMessage _ _ => false

/-- `teloxide::filter_command::<Command, _>()`: parse the message text as
a command and bind it into the context; fail on non-commands and on
events with no text. -/
def bindCommand (ctx : Ctx) : Option Ctx :=
  match msgText ctx.event with
  | some t =>
    match parseCommand t with
    | some c => some { ctx with cmd := some c }
    | none => none
  | none => none

/-- `dptree::case![State::Start]`. -/
def stateIsStart (ctx : Ctx) : Bool :=
  match ctx.state with
  | .Start => true
  | _ => false

/-- `dptree::case![State::ReceiveFullName]`. -/
def stateIsReceiveFullName (ctx : Ctx) : Bool :=
  match ctx.state with
  | .ReceiveFullName => true
  | _ => false

/-- `dptree::case![Command::c]` for a unit command variant. -/
def cmdIs (c : Command) (ctx : Ctx) : Bool :=
  decide (ctx.cmd = some c)

/-- `dptree::case![State::ReceiveProductChoice { full_name }]`: match the
state variant and bind its `full_name` payload into the context. -/
def bindFullName (ctx : Ctx) : Option Ctx :=
  match ctx.state with
  | .ReceiveProductChoice fn => some { ctx with fullName := some fn }
  | _ => none

/-- The `command_handler` subtree (src/examples/purchase.rs:68-74). -/
def command_handler : Tree :=
  .caseOn bindCommand
    (.branch
      (.filter stateIsStart
        (.branch
          (.filter (cmdIs .Help) (.endpoint "help" help))
          (.filter (cmdIs .Start) (.endpoint "start" start))))
      (.filter (cmdIs .Cancel) (.endpoint "cancel" cancel)))

/-- The `message_handler` subtree (src/examples/purchase.rs:76-79). -/
def message_handler : Tree :=
  .filter isMessage
    (.branch command_handler
      (.branch
        (.filter stateIsReceiveFullName
          (.endpoint "receive_full_name" receive_full_name))
        (.endpoint "invalid_state" invalid_state)))

/-- The `callback_query_handler` subtree (src/examples/purchase.rs:81-84). -/
def callback_query_handler : Tree :=
  .filter isCallbackQuery
    (.caseOn bindFullName
      (.endpoint "receive_product_selection" receive_product_selection))

/-- The whole `schema` tree (src/examples/purchase.rs:86-88): the
`dialogue::enter` state injection is performed by the dispatcher when it
builds the evaluation context. -/
def schema : Tree := .branch message_handler callback_query_handler

/-- Modelled from the spec: the conversation store (§4.1, the example's
`InMemStorage::<State>`): a map from conversation identity to its current
state. -/
structure Store where
  entries : List (ConvId × State)
deriving DecidableEq, Repr

/-- Lookup of a conversation's entry. -/
def lookupState : List (ConvId × State) → ConvId → Option State
  | [], _ => none
  | (k, v) :: rest, id => if k = id then some v else lookupState rest id

/-- Removal of a conversation's entry. -/
def removeEntry : List (ConvId × State) → ConvId → List (ConvId × State)
  | [], _ => []
  | (k, v) :: rest, id =>
    if k = id then removeEntry rest id else (k, v) :: removeEntry rest id

/-- Modelled from the spec: `Store.get` (§4.1) returns the default
`Start` state when the id is absent. -/
def Store.get (s : Store) (id : ConvId) : State :=
  match lookupState s.entries id with
  | some st => st
  | none => State.defaultState

/-- Modelled from the spec: `Store.set` (§4.1). -/
def Store.set (s : Store) (id : ConvId) (st : State) : Store :=
  ⟨(id, st) :: removeEntry s.entries id⟩

/-- Modelled from the spec: `Store.remove` (§4.1), the explicit exit
transition reverting the conversation to absence/default. -/
def Store.remove (s : Store) (id : ConvId) : Store :=
  ⟨removeEntry s.entries id⟩

/-- A configured endpoint, as the dispatcher's default fallback. -/
structure EndpointSpec where
  label : String
  run : Env → Ctx → HandlerResult

/-- Modelled from the spec: the default endpoint the dispatcher falls
back to when no leaf endpoint is reached (§4.2); it reports the unhandled
event and requests no state change. -/
def defaultEndpoint : EndpointSpec :=
  ⟨"default", fun _ _ => .ok ⟨.noChange, []⟩⟩

/-- What one dispatch produced: the label of the (single) invoked
handler, its result, and the store after the commit step. -/
structure DispatchOut where
  invoked : String
  result : HandlerResult
  store : Store
deriving Repr

/-- The evaluation context the dispatcher builds for an event: the state
loaded from the store for the event's conversation (`dialogue::enter`),
with no bindings yet. -/
def mkCtx (store : Store) (e : Event) : Ctx :=
  ⟨e, store.get e.convId, none, none⟩

/-- Modelled from the spec: the dispatcher's commit step (§4.3 steps
5-6): `Update` writes, `Exit` removes, `NoChange` and a handler error
leave the store untouched. -/
def commit (store : Store) (id : ConvId) : HandlerResult → Store
  | .ok out =>
    match out.directive with
    | .update s => store.set id s
    | .exit => store.remove id
    | .noChange => store
  | .error _ => store

/-- Modelled from the spec: the dispatcher (§4.3): load the state, build
the context, evaluate the tree, invoke the selected endpoint's handler or
the configured default, and commit the outcome. -/
def dispatch (t : Tree) (d : EndpointSpec) (env : Env) (store : Store) (e : Event) :
    DispatchOut :=
  let ctx := mkCtx store e
  match evalTree env t ctx with
  | some (label, r) => ⟨label, r, commit store e.convId r⟩
  | none =>
    let r := d.run env ctx
    ⟨d.label, r, commit store e.convId r⟩

/-- Dispatching with the example's schema and the default endpoint. -/
def runPurchase (env : Env) (store : Store) (e : Event) : DispatchOut :=
  dispatch schema defaultEndpoint env store e

/-- Dispatching a whole stream of events in arrival order. -/
def dispatchAll (env : Env) : Store → List Event → Store
  | store, [] => store
  | store, e :: es => dispatchAll env (runPurchase env store e).store es

/-- The environment where every outbound send succeeds. -/
def okEnv : Env := ⟨true⟩

/-- How many handlers one dispatch of an event invokes: the endpoints the
committed-choice tree evaluation reaches, plus the default endpoint when
the tree reaches none. -/
def invokedCount (t : Tree) (env : Env) (store : Store) (e : Event) : Nat :=
  evalCount env t (mkCtx store e) +
    match evalTree env t (mkCtx store e) with
    | some _ => 0
    | none => 1

/-- Committed-choice evaluation invokes an endpoint exactly when it
returns a result. -/
theorem evalCount_eq_isSome (env : Env) (t : Tree) : ∀ ctx : Ctx,
    evalCount env t ctx = if (evalTree env t ctx).isSome then 1 else 0 := by
  induction t with
  | filter p rest ih =>
    intro ctx
    by_cases h : p ctx <;> simp [evalCount, evalTree, h, ih]
  | caseOn f rest ih =>
    intro ctx
    cases h : f ctx <;> simp [evalCount, evalTree, h, ih]
  | branch a b iha ihb =>
    intro ctx
    cases h : evalTree env a ctx with
    | some r => simp [evalCount, evalTree, h, iha]
    | none => simp [evalCount, evalTree, h, iha, ihb]
  | endpoint label run =>
    intro ctx
    simp [evalCount, evalTree]

theorem lookupState_removeEntry (l : List (ConvId × State)) (id j : ConvId) :
    lookupState (removeEntry l id) j = if j = id then none else lookupState l j := by
  induction l with
  | nil => simp [removeEntry, lookupState]
  | cons kv rest ih =>
    obtain ⟨k, v⟩ := kv
    by_cases hk : k = id
    · subst hk
      by_cases hj : j = k
      · simp_all [removeEntry, lookupState]
      · have hkj : k ≠ j := fun h => hj h.symm
        simp_all [removeEntry, lookupState, hkj]
    · by_cases hj : j = id
      · subst hj
        simp_all [removeEntry, lookupState]
      · simp_all [removeEntry, lookupState]

theorem Store.get_set_self (s : Store) (id : ConvId) (st : State) :
    (s.set id st).get id = st := by
  simp [Store.get, Store.set, lookupState]

theorem Store.get_set_ne (s : Store) (id j : ConvId) (st : State) (h : j ≠ id) :
    (s.set id st).get j = s.get j := by
  simp [Store.get, Store.set, lookupState, lookupState_removeEntry, h, Ne.symm h]

theorem Store.get_remove_self (s : Store) (id : ConvId) :
    (s.remove id).get id = State.defaultState := by
  simp [Store.get, Store.remove, lookupState_removeEntry]

theorem Store.get_remove_ne (s : Store) (id j : ConvId) (h : j ≠ id) :
    (s.remove id).get j = s.get j := by
  simp [Store.get, Store.remove, lookupState_removeEntry, h]

theorem lookupState_remove_self (s : Store) (id : ConvId) :
    lookupState (s.remove id).entries id = none := by
  simp [Store.remove, lookupState_removeEntry]

/-- C1 Command parsing is a pure total function from text to an optional
command and is case-insensitive: every input yields one of the three
commands or none; `"/START"` and `"/start"` both parse to `Start`, and
`"hello"` parses to none. -/
theorem C1_parse_total_case_insensitive :
    (∀ t : String, parseCommand t = none ∨
      parseCommand t = some Command.Help ∨
      parseCommand t = some Command.Start ∨
      parseCommand t = some Command.Cancel) ∧
    parseCommand "/START" = some Command.Start ∧
    parseCommand "/start" = some Command.Start ∧
    parseCommand "hello" = none := by
  refine ⟨fun t => ?_, by decide, by decide, by decide⟩
  cases parseCommand t with
  | none => exact Or.inl rfl
  | some c =>
    cases c with
    | Help => exact Or.inr (Or.inl rfl)
    | Start => exact Or.inr (Or.inr (Or.inl rfl))
    | Cancel => exact Or.inr (Or.inr (Or.inr rfl))

/-- C2 For every inbound event, message or callback, the dispatcher
invokes the endpoint the predicate tree selects, and when the tree
reaches no endpoint it invokes the configured default endpoint instead;
no event is dropped without a handler being invoked. -/
theorem C2_no_event_dropped (d : EndpointSpec) (env : Env) (store : Store) (e : Event) :
    (dispatch schema d env store e).invoked =
      (match evalTree env schema (mkCtx store e) with
       | some lr => lr.1
       | none => d.label) ∧
    (dispatch schema d env store e).result =
      (match evalTree env schema (mkCtx store e) with
       | some lr => lr.2
       | none => d.run env (mkCtx store e)) := by
  cases h : evalTree env schema (mkCtx store e) with
  | some lr =>
    obtain ⟨l, r⟩ := lr
    simp [dispatch, h]
  | none => simp [dispatch, h]

/-- C3 Exactly one handler is invoked per dispatched event, and branch
evaluation is an ordered committed choice: the first child that reaches
an endpoint decides the result and the invocation count regardless of its
sibling, and the sibling is evaluated only when the first child reaches
no endpoint. -/
theorem C3_exactly_one_committed_choice (env : Env) (store : Store) (e : Event)
    (a b : Tree) (ctx : Ctx) :
    invokedCount schema env store e = 1 ∧
    evalTree env (Tree.branch a b) ctx =
      (match evalTree env a ctx with
       | some r => some r
       | none => evalTree env b ctx) ∧
    evalCount env (Tree.branch a b) ctx =
      (match evalTree env a ctx with
       | some _ => evalCount env a ctx
       | none => evalCount env a ctx + evalCount env b ctx) := by
  refine ⟨?_, by simp [evalTree], by simp [evalCount]⟩
  rw [invokedCount, evalCount_eq_isSome]
  cases h : evalTree env schema (mkCtx store e) <;> simp [h]

/-- C4 With stored state `Start`, a message whose text parses as
`Command::Start` invokes the `start` handler and commits
`ReceiveFullName` for that conversation, leaving every other
conversation's stored state unchanged. -/
theorem C4_start_command_transition (store : Store) (id : ConvId) (text : String)
    (hst : store.get id = State.Start) (hcmd : parseCommand text = some Command.Start) :
    (runPurchase okEnv store (.TextMessage id (some text))).invoked = "start" ∧
    (runPurchase okEnv store (.TextMessage id (some text))).store.get id =
      State.ReceiveFullName ∧
    ∀ j : ConvId, j ≠ id →
      (runPurchase okEnv store (.TextMessage id (some text))).store.get j = store.get j := by
  have hev : evalTree okEnv schema (mkCtx store (.TextMessage id (some text))) =
      some ("start",
        .ok ⟨.update .ReceiveFullName, ["Let's start! What's your full name?"]⟩) := by
    simp [mkCtx, hst, schema, message_handler, command_handler, callback_query_handler,
      evalTree, isMessage, bindCommand, msgText, hcmd, stateIsStart, cmdIs, start, okEnv]
  refine ⟨?_, ?_, ?_⟩
  · simp [runPurchase, dispatch, hev]
  · simp [runPurchase, dispatch, hev, commit, Store.get_set_self]
  · intro j hj
    simp only [runPurchase, dispatch, hev, commit]
    exact Store.get_set_ne store id j State.ReceiveFullName hj

/-- Witness for C4 at a concrete store, conversation and text. -/
theorem C4_start_command_transition_witness :
    Store.get ⟨[(2, State.ReceiveFullName)]⟩ 1 = State.Start ∧
    parseCommand "/start" = some Command.Start ∧
    (runPurchase okEnv ⟨[(2, State.ReceiveFullName)]⟩
      (.TextMessage 1 (some "/start"))).invoked = "start" ∧
    (runPurchase okEnv ⟨[(2, State.ReceiveFullName)]⟩
      (.TextMessage 1 (some "/start"))).store.get 1 = State.ReceiveFullName :=
  ⟨by decide, by decide,
    (C4_start_command_transition ⟨[(2, State.ReceiveFullName)]⟩ 1 "/start"
      (by decide) (by decide)).1,
    (C4_start_command_transition ⟨[(2, State.ReceiveFullName)]⟩ 1 "/start"
      (by decide) (by decide)).2.1⟩

/-- C5 With stored state `ReceiveFullName`, dispatching the message
"John Doe" invokes `receive_full_name` and commits
`ReceiveProductChoice` carrying that full name. -/
theorem C5_full_name_transition (store : Store) (id : ConvId)
    (hst : store.get id = State.ReceiveFullName) :
    (runPurchase okEnv store (.TextMessage id (some "John Doe"))).invoked =
      "receive_full_name" ∧
    (runPurchase okEnv store (.TextMessage id (some "John Doe"))).store.get id =
      State.ReceiveProductChoice "John Doe" := by
  have hpc : parseCommand "John Doe" = none := by decide
  have hev : evalTree okEnv schema (mkCtx store (.TextMessage id (some "John Doe"))) =
      some ("receive_full_name",
        .ok ⟨.update (.ReceiveProductChoice "John Doe"), ["Select a product:"]⟩) := by
    simp [mkCtx, hst, schema, message_handler, command_handler, callback_query_handler,
      evalTree, isMessage, bindCommand, msgText, hpc, stateIsStart,
      stateIsReceiveFullName, receive_full_name, okEnv]
  constructor
  · simp [runPurchase, dispatch, hev]
  · simp [runPurchase, dispatch, hev, commit, Store.get_set_self]

/-- Witness for C5 at a concrete store and conversation. -/
theorem C5_full_name_transition_witness :
    Store.get ⟨[(1, State.ReceiveFullName)]⟩ 1 = State.ReceiveFullName ∧
    (runPurchase okEnv ⟨[(1, State.ReceiveFullName)]⟩
      (.TextMessage 1 (some "John Doe"))).store.get 1 =
      State.ReceiveProductChoice "John Doe" :=
  ⟨by decide,
    (C5_full_name_transition ⟨[(1, State.ReceiveFullName)]⟩ 1 (by decide)).2⟩

/-- C6 With stored state `ReceiveProductChoice` for "John Doe", a
callback query with data "Banana" invokes `receive_product_selection`,
whose outcome is `Exit` with the confirmation message, and afterwards the
conversation's entry is removed so its state reads back as the default
`Start`. -/
theorem C6_product_selection_exit (store : Store) (id : ConvId)
    (hst : store.get id = State.ReceiveProductChoice "John Doe") :
    (runPurchase okEnv store (.CallbackQuery id (some "Banana"))).invoked =
      "receive_product_selection" ∧
    (runPurchase okEnv store (.CallbackQuery id (some "Banana"))).result =
      .ok ⟨.exit, ["John Doe, product 'Banana' has been purchased successfully!"]⟩ ∧
    lookupState
      (runPurchase okEnv store (.CallbackQuery id (some "Banana"))).store.entries id =
      none ∧
    (runPurchase okEnv store (.CallbackQuery id (some "Banana"))).store.get id =
      State.defaultState := by
  have hmsg : "John Doe" ++ ", product '" ++ "Banana" ++
      "' has been purchased successfully!" =
      "John Doe, product 'Banana' has been purchased successfully!" := by decide
  have hev : evalTree okEnv schema (mkCtx store (.CallbackQuery id (some "Banana"))) =
      some ("receive_product_selection",
        .ok ⟨.exit, ["John Doe, product 'Banana' has been purchased successfully!"]⟩) := by
    simp [mkCtx, hst, schema, message_handler, callback_query_handler, evalTree,
      isMessage, isCallbackQuery, bindFullName, receive_product_selection, qData,
      okEnv, hmsg]
  refine ⟨?_, ?_, ?_, ?_⟩
  · simp [runPurchase, dispatch, hev]
  · simp [runPurchase, dispatch, hev]
  · simp only [runPurchase, dispatch, hev, commit]
    exact lookupState_remove_self store id
  · simp only [runPurchase, dispatch, hev, commit]
    exact Store.get_remove_self store id

/-- Witness for C6 at a concrete store and conversation. -/
theorem C6_product_selection_exit_witness :
    Store.get ⟨[(1, State.ReceiveProductChoice "John Doe")]⟩ 1 =
      State.ReceiveProductChoice "John Doe" ∧
    (runPurchase okEnv ⟨[(1, State.ReceiveProductChoice "John Doe")]⟩
      (.CallbackQuery 1 (some "Banana"))).store.get 1 = State.defaultState :=
  ⟨by decide,
    (C6_product_selection_exit ⟨[(1, State.ReceiveProductChoice "John Doe")]⟩ 1
      (by decide)).2.2.2⟩

/-- C7 A handler error leaves the whole store, and in particular the
conversation's stored state, exactly as it was before the event, and a
stream of events continues past the failed one as if it had not mutated
anything. -/
theorem C7_handler_error_no_commit (env : Env) (store : Store) (e : Event)
    (err : String) (rest : List Event)
    (h : (runPurchase env store e).result = .error err) :
    (runPurchase env store e).store = store ∧
    dispatchAll env store (e :: rest) = dispatchAll env store rest := by
  have hs : (runPurchase env store e).store = store := by
    simp only [runPurchase, dispatch] at h ⊢
    cases hev : evalTree env schema (mkCtx store e) with
    | some lr =>
      obtain ⟨l, r⟩ := lr
      simp only [hev] at h ⊢
      subst h
      simp [commit]
    | none =>
      simp only [hev] at h ⊢
      simp [defaultEndpoint] at h
  exact ⟨hs, by simp [dispatchAll, hs]⟩

/-- Witness for C7: a failing outbound send makes the fallback handler
error on a concrete message, and the store is untouched. -/
theorem C7_handler_error_no_commit_witness :
    (runPurchase ⟨false⟩ ⟨[]⟩ (.TextMessage 1 (some "hi"))).result =
      .error "send_message failed" ∧
    (runPurchase ⟨false⟩ ⟨[]⟩ (.TextMessage 1 (some "hi"))).store = (⟨[]⟩ : Store) :=
  ⟨rfl,
    (C7_handler_error_no_commit ⟨false⟩ ⟨[]⟩ (.TextMessage 1 (some "hi"))
      "send_message failed" [] rfl).1⟩

/-- C8 In stored state `ReceiveFullName`, messages parsing as `/help` or
`/start` are not routed to the `help`/`start` handlers (those cases sit
under the `State::Start` guard): the only command matched outside state
`Start` is `Cancel`, every other text goes to `receive_full_name`, and
the raw command text is committed as the `full_name` of
`ReceiveProductChoice`. -/
theorem C8_commands_guarded_by_start_state (store : Store) (id : ConvId) (text : String)
    (hst : store.get id = State.ReceiveFullName) :
    (runPurchase okEnv store (.TextMessage id (some text))).invoked =
      (if parseCommand text = some Command.Cancel then "cancel"
       else "receive_full_name") ∧
    (parseCommand text ≠ some Command.Cancel →
      (runPurchase okEnv store (.TextMessage id (some text))).store.get id =
        State.ReceiveProductChoice text) := by
  have main : parseCommand text ≠ some Command.Cancel →
      evalTree okEnv schema (mkCtx store (.TextMessage id (some text))) =
        some ("receive_full_name",
          .ok ⟨.update (.ReceiveProductChoice text), ["Select a product:"]⟩) := by
    intro hne
    cases hpc : parseCommand text with
    | none =>
      simp [mkCtx, hst, schema, message_handler, command_handler,
        callback_query_handler, evalTree, isMessage, bindCommand, msgText, hpc,
        stateIsStart, stateIsReceiveFullName, receive_full_name, okEnv]
    | some c =>
      cases c with
      | Help =>
        simp [mkCtx, hst, schema, message_handler, command_handler,
          callback_query_handler, evalTree, isMessage, bindCommand, msgText, hpc,
          stateIsStart, stateIsReceiveFullName, cmdIs, receive_full_name, okEnv]
      | Start =>
        simp [mkCtx, hst, schema, message_handler, command_handler,
          callback_query_handler, evalTree, isMessage, bindCommand, msgText, hpc,
          stateIsStart, stateIsReceiveFullName, cmdIs, receive_full_name, okEnv]
      | Cancel => exact absurd hpc hne
  by_cases hc : parseCommand text = some Command.Cancel
  · have hev : evalTree okEnv schema (mkCtx store (.TextMessage id (some text))) =
        some ("cancel", .ok ⟨.exit, ["Cancelling the dialogue."]⟩) := by
      simp [mkCtx, hst, schema, message_handler, command_handler,
        callback_query_handler, evalTree, isMessage, bindCommand, msgText, hc,
        stateIsStart, stateIsReceiveFullName, cmdIs, cancel, okEnv]
    refine ⟨?_, fun hne => absurd hc hne⟩
    simp [runPurchase, dispatch, hev, hc]
  · have hev := main hc
    constructor
    · simp [runPurchase, dispatch, hev, hc]
    · intro _
      simp [runPurchase, dispatch, hev, commit, Store.get_set_self]

/-- Witness for C8: "/help" in state `ReceiveFullName` is swallowed by
`receive_full_name` and becomes the committed full name. -/
theorem C8_commands_guarded_by_start_state_witness :
    Store.get ⟨[(7, State.ReceiveFullName)]⟩ 7 = State.ReceiveFullName ∧
    (runPurchase okEnv ⟨[(7, State.ReceiveFullName)]⟩
      (.TextMessage 7 (some "/help"))).invoked =
      (if parseCommand "/help" = some Command.Cancel then "cancel"
       else "receive_full_name") ∧
    (runPurchase okEnv ⟨[(7, State.ReceiveFullName)]⟩
      (.TextMessage 7 (some "/help"))).store.get 7 =
      State.ReceiveProductChoice "/help" :=
  ⟨by decide,
    (C8_commands_guarded_by_start_state ⟨[(7, State.ReceiveFullName)]⟩ 7 "/help"
      (by decide)).1,
    (C8_commands_guarded_by_start_state ⟨[(7, State.ReceiveFullName)]⟩ 7 "/help"
      (by decide)).2 (by decide)⟩

/-- C9 In every stored state, a message parsing as `Command::Cancel`
invokes the `cancel` handler, which exits the dialogue: the outcome is
`Exit`, the conversation's entry is removed, and its state reads back as
the default `Start`. -/
theorem C9_cancel_exits_any_state (store : Store) (id : ConvId) (text : String)
    (hcmd : parseCommand text = some Command.Cancel) :
    (runPurchase okEnv store (.TextMessage id (some text))).invoked = "cancel" ∧
    (runPurchase okEnv store (.TextMessage id (some text))).result =
      .ok ⟨.exit, ["Cancelling the dialogue."]⟩ ∧
    lookupState
      (runPurchase okEnv store (.TextMessage id (some text))).store.entries id = none ∧
    (runPurchase okEnv store (.TextMessage id (some text))).store.get id =
      State.defaultState := by
  have hev : evalTree okEnv schema (mkCtx store (.TextMessage id (some text))) =
      some ("cancel", .ok ⟨.exit, ["Cancelling the dialogue."]⟩) := by
    cases hstate : store.get id with
    | Start =>
      simp [mkCtx, hstate, schema, message_handler, command_handler,
        callback_query_handler, evalTree, isMessage, bindCommand, msgText, hcmd,
        stateIsStart, stateIsReceiveFullName, cmdIs, cancel, okEnv]
    | ReceiveFullName =>
      simp [mkCtx, hstate, schema, message_handler, command_handler,
        callback_query_handler, evalTree, isMessage, bindCommand, msgText, hcmd,
        stateIsStart, stateIsReceiveFullName, cmdIs, cancel, okEnv]
    | ReceiveProductChoice fn =>
      simp [mkCtx, hstate, schema, message_handler, command_handler,
        callback_query_handler, evalTree, isMessage, bindCommand, msgText, hcmd,
        stateIsStart, stateIsReceiveFullName, cmdIs, cancel, okEnv]
  refine ⟨?_, ?_, ?_, ?_⟩
  · simp [runPurchase, dispatch, hev]
  · simp [runPurchase, dispatch, hev]
  · simp only [runPurchase, dispatch, hev, commit]
    exact lookupState_remove_self store id
  · simp only [runPurchase, dispatch, hev, commit]
    exact Store.get_remove_self store id

/-- Witness for C9: an uppercase "/CANCEL" cancels a conversation that is
in the middle of the purchase flow. -/
theorem C9_cancel_exits_any_state_witness :
    parseCommand "/CANCEL" = some Command.Cancel ∧
    (runPurchase okEnv ⟨[(1, State.ReceiveProductChoice "Jane")]⟩
      (.TextMessage 1 (some "/CANCEL"))).invoked = "cancel" ∧
    (runPurchase okEnv ⟨[(1, State.ReceiveProductChoice "Jane")]⟩
      (.TextMessage 1 (some "/CANCEL"))).store.get 1 = State.defaultState :=
  ⟨by decide,
    (C9_cancel_exits_any_state ⟨[(1, State.ReceiveProductChoice "Jane")]⟩ 1 "/CANCEL"
      (by decide)).1,
    (C9_cancel_exits_any_state ⟨[(1, State.ReceiveProductChoice "Jane")]⟩ 1 "/CANCEL"
      (by decide)).2.2.2⟩

/-- C10 In stored state `ReceiveProductChoice`, a callback query with no
data invokes `receive_product_selection`, which returns `Ok` sending no
message and requesting no transition, and the store (hence the
conversation's `full_name`-carrying state) is left exactly unchanged —
whether or not outbound sends would succeed. -/
theorem C10_callback_without_data_is_noop (env : Env) (store : Store) (id : ConvId)
    (fn : String) (hst : store.get id = State.ReceiveProductChoice fn) :
    (runPurchase env store (.CallbackQuery id none)).invoked =
      "receive_product_selection" ∧
    (runPurchase env store (.CallbackQuery id none)).result =
      .ok ⟨.noChange, []⟩ ∧
    (runPurchase env store (.CallbackQuery id none)).store = store := by
  have hev : evalTree env schema (mkCtx store (.CallbackQuery id none)) =
      some ("receive_product_selection", .ok ⟨.noChange, []⟩) := by
    simp [mkCtx, hst, schema, message_handler, callback_query_handler, evalTree,
      isMessage, isCallbackQuery, bindFullName, receive_product_selection, qData]
  refine ⟨?_, ?_, ?_⟩ <;> simp [runPurchase, dispatch, hev, commit]

/-- Witness for C10 at a concrete store and conversation, with sends
disabled to show no send is attempted. -/
theorem C10_callback_without_data_is_noop_witness :
    Store.get ⟨[(3, State.ReceiveProductChoice "John Doe")]⟩ 3 =
      State.ReceiveProductChoice "John Doe" ∧
    (runPurchase ⟨false⟩ ⟨[(3, State.ReceiveProductChoice "John Doe")]⟩
      (.CallbackQuery 3 none)).result = .ok ⟨.noChange, []⟩ ∧
    (runPurchase ⟨false⟩ ⟨[(3, State.ReceiveProductChoice "John Doe")]⟩
      (.CallbackQuery 3 none)).store =
      (⟨[(3, State.ReceiveProductChoice "John Doe")]⟩ : Store) :=
  ⟨by decide,
    (C10_callback_without_data_is_noop ⟨false⟩
      ⟨[(3, State.ReceiveProductChoice "John Doe")]⟩ 3 "John Doe" (by decide)).2.1,
    (C10_callback_without_data_is_noop ⟨false⟩
      ⟨[(3, State.ReceiveProductChoice "John Doe")]⟩ 3 "John Doe" (by decide)).2.2⟩

end Purchase
